import Mathlib

/-!
Shallow embedding of the fal-ai skill scripts
(`fal_helper.py`, `generate_image.py`, `generate_video.py`,
`generate_video_text.py`, `generate_speech.py`).

Conventions of the embedding:
* Python dicts used as registries / price tables become association lists
  with distinct keys; `dict.get(k, d)` becomes `dictGet`, `dict.get(k)`
  becomes `lookup` returning an `Option`.
* Python floats are modelled as exact rationals (the scripts only perform
  the decimal arithmetic stated in their docstrings; no NaN or rounding
  behaviour is relied upon).
* Python strings are modelled as `String` / `List Char` (code points, which
  is also what Python's `len` counts).
* Request payloads (JSON-like dicts) become association lists of
  `String × FalValue`, in insertion order.
-/

/-- JSON-like values appearing in request payloads built by the scripts. -/
inductive FalValue where
  | str : String → FalValue
  | int : Int → FalValue
  | bool : Bool → FalValue
  | rat : ℚ → FalValue
deriving DecidableEq, Repr

/-- Python `dict.get(key, default)` on an association list (keys in the
source tables are distinct, so first match is the dict semantics). -/
def dictGet {κ ν : Type} [DecidableEq κ] : List (κ × ν) → κ → ν → ν
  | [], _, d => d
  | (k, v) :: t, key, d => if key = k then v else dictGet t key d

/-- Python `dict.get(key)` (no default) on an association list. -/
def lookup {κ ν : Type} [DecidableEq κ] : List (κ × ν) → κ → Option ν
  | [], _ => none
  | (k, v) :: t, key => if key = k then some v else lookup t key

/-- `FalClient.IMAGE_MODELS` from fal_helper.py. -/
def IMAGE_MODELS : List (String × String) :=
  [ ("flux-pro", "fal-ai/flux-pro/v1.1"),
    ("flux-dev", "fal-ai/flux/dev"),
    ("flux-schnell", "fal-ai/flux/schnell"),
    ("flux-realism", "fal-ai/flux-realism"),
    ("stable-diffusion-xl", "fal-ai/stable-diffusion-v3-medium"),
    ("recraft-v3", "fal-ai/recraft-v3") ]

/-- `FalClient.VIDEO_MODELS` (image-to-video) from fal_helper.py. -/
def VIDEO_MODELS : List (String × String) :=
  [ ("kling", "fal-ai/kling-video/v1.5/pro/image-to-video"),
    ("minimax", "fal-ai/minimax-video/image-to-video"),
    ("luma", "fal-ai/luma-dream-machine/image-to-video"),
    ("runway-gen3", "fal-ai/runway-gen3/turbo/image-to-video"),
    ("hunyuan", "fal-ai/hunyuan-video-v1.5/image-to-video") ]

/-- `FalClient.TEXT_TO_VIDEO_MODELS` from fal_helper.py. -/
def TEXT_TO_VIDEO_MODELS : List (String × String) :=
  [ ("hunyuan", "fal-ai/hunyuan-video"),
    ("hunyuan-v1.5", "fal-ai/hunyuan-video-v1.5/text-to-video"),
    ("minimax", "fal-ai/minimax/video-01"),
    ("ltx", "fal-ai/ltx-video"),
    ("ltx-v2", "fal-ai/ltx-2/text-to-video"),
    ("ltx-v2-fast", "fal-ai/ltx-2/text-to-video/fast"),
    ("wan", "fal-ai/wan/v2.1/text-to-video") ]

/-- `FalClient.TTS_MODELS` from fal_helper.py. -/
def TTS_MODELS : List (String × String) :=
  [ ("f5-tts", "fal-ai/f5-tts"),
    ("kokoro", "fal-ai/kokoro"),
    ("playht", "fal-ai/playht/tts/v3"),
    ("minimax-tts", "fal-ai/minimax-tts/text-to-speech") ]

/-- Model resolution in `generate_image`:
`model_id = self.IMAGE_MODELS.get(model, model)` (fal_helper.py line 172). -/
def resolveImageModel (model : String) : String :=
  dictGet IMAGE_MODELS model model

/-- Model resolution in `generate_video`:
`model_id = self.VIDEO_MODELS.get(model, model)` (fal_helper.py line 215). -/
def resolveVideoModel (model : String) : String :=
  dictGet VIDEO_MODELS model model

/-- Model resolution in `generate_video_from_text`:
`model_id = self.TEXT_TO_VIDEO_MODELS.get(model, model)` (line 261). -/
def resolveTextToVideoModel (model : String) : String :=
  dictGet TEXT_TO_VIDEO_MODELS model model

/-- Model resolution in `text_to_speech`:
`model_id = self.TTS_MODELS.get(model, model)` (fal_helper.py line 305). -/
def resolveTtsModel (model : String) : String :=
  dictGet TTS_MODELS model model

/-- Payload construction of `FalClient.generate_image` (fal_helper.py lines
174-188).  The base dict is built with the clamped image count
(`min(max(num_images, 1), 4)`), then each optional field is appended when
its Python guard is truthy: `aspect_ratio and aspect_ratio != "square"`,
`seed is not None`, `negative_prompt` (not None and nonempty). -/
def generateImagePayload (prompt : String) (aspectRatio : String)
    (numImages : Int) (seed : Option Int) (enableSafetyChecker : Bool)
    (negativePrompt : Option String) : List (String × FalValue) :=
  [ ("prompt", FalValue.str prompt),
    ("num_images", FalValue.int (min (max numImages 1) 4)),
    ("enable_safety_checker", FalValue.bool enableSafetyChecker) ]
  ++ (if aspectRatio ≠ "" ∧ aspectRatio ≠ "square"
        then [("image_size", FalValue.str aspectRatio)] else [])
  ++ (match seed with
      | some s => [("seed", FalValue.int s)]
      | none => [])
  ++ (match negativePrompt with
      | some np => if np ≠ "" then [("negative_prompt", FalValue.str np)] else []
      | none => [])

/-- Key lookup in a built payload (payloads are dicts with distinct keys). -/
def payloadGet (p : List (String × FalValue)) (k : String) : Option FalValue :=
  lookup p k

/-- Bool test: does the first list start the second (needle, hay)? -/
def isStartOf : List Char → List Char → Bool
  | [], _ => true
  | _ :: _, [] => false
  | a :: as, b :: bs => a = b && isStartOf as bs

/-- Python substring containment, needle then hay: the model of
the expression `needle in hay` on strings. -/
def hasSubstring (needle : List Char) : List Char → Bool
  | [] => needle.isEmpty
  | c :: t => isStartOf needle (c :: t) || hasSubstring needle t

/-- `FalClient.PRICING` from fal_helper.py (unit price as an exact rational,
unit name verbatim). -/
def PRICING : List (String × (ℚ × String)) :=
  [ ("fal-ai/flux/schnell", (0.003, "megapixels")),
    ("fal-ai/flux/dev", (0.025, "megapixels")),
    ("fal-ai/flux-pro/v1.1", (0.04, "megapixels")),
    ("fal-ai/flux-realism", (0.035, "megapixels")),
    ("fal-ai/recraft-v3", (0.04, "images")),
    ("fal-ai/stable-diffusion-v3-medium", (0.035, "images")),
    ("fal-ai/kling-video/v1.5/pro/image-to-video", (0.1, "seconds")),
    ("fal-ai/minimax-video/image-to-video", (0.5, "videos")),
    ("fal-ai/luma-dream-machine/image-to-video", (0.5, "videos")),
    ("fal-ai/runway-gen3/turbo/image-to-video", (0.05, "seconds")),
    ("fal-ai/hunyuan-video-v1.5/image-to-video", (0.00125, "compute seconds")),
    ("fal-ai/hunyuan-video", (0.075, "seconds")),
    ("fal-ai/hunyuan-video-v1.5/text-to-video", (0.075, "seconds")),
    ("fal-ai/minimax/video-01", (0.5, "videos")),
    ("fal-ai/ltx-video", (0.04, "seconds")),
    ("fal-ai/ltx-2/text-to-video", (0.04, "seconds")),
    ("fal-ai/ltx-2/text-to-video/fast", (0.04, "seconds")),
    ("fal-ai/wan/v2.1/text-to-video", (0.05, "seconds")),
    ("fal-ai/f5-tts", (0.05, "1000 characters")),
    ("fal-ai/kokoro", (0.02, "1000 characters")),
    ("fal-ai/playht/tts/v3", (0.03, "minutes")),
    ("fal-ai/minimax-tts/text-to-speech", (0.1, "1000 characters")) ]

/-- `FalClient.estimate_image_cost` (fal_helper.py lines 397-425).  Returns
the cost and the unit; the human-readable breakdown string of the source is
display-only and is not modelled.  A missing price entry yields `none`. -/
def estimate_image_cost (modelId : String) (numImages : Int)
    (width height : Int) : Option (ℚ × String) :=
  match lookup PRICING modelId with
  | none => none
  | some (unitPrice, unit) =>
    if unit = "megapixels" then
      let megapixels : ℚ := ((width : ℚ) * (height : ℚ)) / 1000000
      some (unitPrice * megapixels * (numImages : ℚ), unit)
    else
      some (unitPrice * (numImages : ℚ), unit)

/-- `FalClient.estimate_video_cost` (fal_helper.py lines 427-452). -/
def estimate_video_cost (modelId : String) (durationSeconds : ℚ) :
    Option (ℚ × String) :=
  match lookup PRICING modelId with
  | none => none
  | some (unitPrice, unit) =>
    if unit = "seconds" ∨ unit = "compute seconds" then
      some (unitPrice * durationSeconds, unit)
    else
      some (unitPrice, unit)

/-- `FalClient.estimate_tts_cost` (fal_helper.py lines 454-485); the text is
a list of code points, `char_count = len(text)`. -/
def estimate_tts_cost (modelId : String) (text : List Char) :
    Option (ℚ × String) :=
  match lookup PRICING modelId with
  | none => none
  | some (unitPrice, unit) =>
    let charCount : ℚ := (text.length : ℚ)
    if hasSubstring "1000 characters".data unit.data then
      some (unitPrice * (charCount / 1000), unit)
    else if hasSubstring "minutes".data unit.data then
      some (unitPrice * (charCount / 750), unit)
    else
      some (unitPrice, unit)

/-- Python `int(q)` on a float value: truncation toward zero, modelled on
an exact rational with T-division of the numerator by the denominator. -/
def pyTruncInt (q : ℚ) : Int := q.num.tdiv (q.den : Int)

/-- Payload construction of `FalClient.generate_video` (fal_helper.py lines
220-232): base dict holds the encoded image; then, when truthy, the prompt
(`if prompt:`), the duration as the decimal string of its integer
truncation (`if duration: payload["duration"] = str(int(duration))`, with
`0` falsy), and the aspect ratio override. -/
def generateVideoPayload (imageDataUrl : String) (prompt : Option String)
    (duration : ℚ) (aspectRatio : Option String) : List (String × FalValue) :=
  [("image_url", FalValue.str imageDataUrl)]
  ++ (match prompt with
      | some pr => if pr ≠ "" then [("prompt", FalValue.str pr)] else []
      | none => [])
  ++ (if duration ≠ 0
        then [("duration", FalValue.str (toString (pyTruncInt duration)))]
        else [])
  ++ (match aspectRatio with
      | some a => if a ≠ "" then [("aspect_ratio", FalValue.str a)] else []
      | none => [])

/-- Index of the first dot in a character list (used to model Python's
`name.rfind(".")` after reversing the final path component). -/
def dotIdx : List Char → Option Nat
  | [] => none
  | c :: t => if c = '.' then some 0 else (dotIdx t).map (· + 1)

/-- `pathlib.PurePath.suffix` of a path given as a character list: the
extension of the final component, where the final component is the run of
characters after the last slash, and an extension exists only when the
last dot of the name is neither its first nor its last character
(`i = name.rfind("."); name[i:] if 0 < i < len(name) - 1 else ""`).
The `expanduser`/`resolve` steps of the source touch the filesystem, not
the final component's extension, and are modelled as the identity. -/
def suffixFromRevName (rname : List Char) : List Char :=
  match dotIdx rname with
  | none => []
  | some j =>
    if 0 < j ∧ j + 1 < rname.length then (rname.take (j + 1)).reverse else []

/-- The suffix extraction applied to the reversed final component. -/
def pathSuffix (p : List Char) : List Char :=
  suffixFromRevName (p.reverse.takeWhile (fun c => c != '/'))

/-- The image `mime_types` table of `FalClient._encode_image`
(fal_helper.py lines 333-339). -/
def IMAGE_MIME_TYPES : List (String × String) :=
  [ (".jpg", "image/jpeg"), (".jpeg", "image/jpeg"), (".png", "image/png"),
    (".webp", "image/webp"), (".gif", "image/gif") ]

/-- The audio `mime_types` table of `FalClient._encode_audio`
(fal_helper.py lines 356-362). -/
def AUDIO_MIME_TYPES : List (String × String) :=
  [ (".mp3", "audio/mpeg"), (".wav", "audio/wav"), (".ogg", "audio/ogg"),
    (".m4a", "audio/mp4"), (".flac", "audio/flac") ]

/-- MIME resolution of `_encode_image`: lower-case the suffix (ASCII model
of `str.lower`, which is what the table keys exercise) and look it up,
defaulting to `image/png` (`mime_types.get(suffix, "image/png")`). -/
def imageMime (p : List Char) : String :=
  dictGet IMAGE_MIME_TYPES ⟨(pathSuffix p).map Char.toLower⟩ "image/png"

/-- MIME resolution of `_encode_audio`, defaulting to `audio/mpeg`. -/
def audioMime (p : List Char) : String :=
  dictGet AUDIO_MIME_TYPES ⟨(pathSuffix p).map Char.toLower⟩ "audio/mpeg"

/-- The standard base64 alphabet used by Python's `base64.b64encode`. -/
def B64_ALPHABET : List Char :=
  "ABCDEFGHIJKLMNOPQRSTUVWXYZabcdefghijklmnopqrstuvwxyz0123456789+/".data

/-- Character of a 6-bit group. -/
def b64Char (n : Nat) : Char := B64_ALPHABET.getD n 'A'

/-- RFC 4648 base64 of a byte sequence with `=` padding, as produced by
`base64.b64encode` (bytes taken mod 256). -/
def b64Encode : List Nat → List Char
  | [] => []
  | [a] => [b64Char (a % 256 / 4), b64Char (a % 4 * 16), '=', '=']
  | [a, b] =>
      [b64Char (a % 256 / 4), b64Char (a % 4 * 16 + b % 256 / 16),
       b64Char (b % 16 * 4), '=']
  | a :: b :: c :: rest =>
      [b64Char (a % 256 / 4), b64Char (a % 4 * 16 + b % 256 / 16),
       b64Char (b % 16 * 4 + c % 256 / 64), b64Char (c % 64)]
      ++ b64Encode rest

/-- `FalClient._encode_image` (fal_helper.py lines 325-346) on an existing
file, as a function of the path and the file's bytes: the data URI
`f"data:{mime_type};base64,{data}"`.  (A missing file raises
`FileNotFoundError` before any encoding; that branch is outside this
claim's scope.) -/
def encode_image (imagePath : List Char) (bytes : List Nat) : List Char :=
  "data:".data ++ (imageMime imagePath).data ++ ";base64,".data
    ++ b64Encode bytes

/-- `FalClient._encode_audio` (fal_helper.py lines 348-369), same shape
with the audio table and default. -/
def encode_audio (audioPath : List Char) (bytes : List Nat) : List Char :=
  "data:".data ++ (audioMime audioPath).data ++ ";base64,".data
    ++ b64Encode bytes

/-- Local filesystem state: existing directories and written files. -/
structure FS where
  dirs : List String
  files : List (String × List Nat)
deriving DecidableEq

/-- Outcome of the HTTP GET performed by `download_file`: a success body,
a non-success status (on which `raise_for_status` raises), or a transport
error raised by the client. -/
inductive HttpResult where
  | success : List Nat → HttpResult
  | statusError : Nat → HttpResult
  | transportError : String → HttpResult
deriving DecidableEq

/-- Parent directory of a path string: the characters before the last
slash (model of `Path(p).parent` for slash-containing paths). -/
def parentDir (p : String) : String :=
  ⟨((p.data.reverse.dropWhile (fun c => c != '/')).drop 1).reverse⟩

/-- `FalClient.download_file` (fal_helper.py lines 371-382) over the
filesystem model: resolve the output path (resolution passed as a
function, modelling `expanduser().resolve()`), create the parent directory
(`path.parent.mkdir(parents=True, exist_ok=True)`; ancestors are
abstracted into the one parent entry), then perform the GET: on a
non-success status or transport error the error propagates and no file is
written; on success the full body is written and the resolved path
returned.  The URL only names the GET target, whose outcome is the
`HttpResult` argument. -/
def download_file (fs : FS) (resolve : String → String) (_url : String)
    (outputPath : String) (resp : HttpResult) : FS × Except String String :=
  let path := resolve outputPath
  let fs1 : FS := { fs with dirs := parentDir path :: fs.dirs }
  match resp with
  | HttpResult.statusError code =>
      (fs1, Except.error ("HTTP status " ++ toString code))
  | HttpResult.transportError m => (fs1, Except.error m)
  | HttpResult.success body =>
      ({ fs1 with files := (path, body) :: fs1.files }, Except.ok path)

/-- The download step of generate_image.py (lines 147-153), per image in
the loop: on success print the saved path and append it to
downloaded_paths (the Bool); on failure print only the exception text and
continue. -/
def imageDownloadStep (fetch : Except String String) : List String × Bool :=
  match fetch with
  | Except.ok saved => (["  Saved: " ++ saved], true)
  | Except.error e => (["  Error downloading: " ++ e], false)

/-- The download step of generate_video.py (lines 133-140): on failure
print the exception text, print the video URL for manual retry, and exit
with status 1 (the Nat). -/
def videoDownloadStep (videoUrl : String) (fetch : Except String String) :
    List String × Nat :=
  match fetch with
  | Except.ok saved => (["Saved: " ++ saved], 0)
  | Except.error e =>
      (["Error downloading video: " ++ e,
        "Video URL (download manually): " ++ videoUrl], 1)

/-- The download step of generate_video_text.py (lines 144-152), same
failure behaviour as generate_video.py. -/
def videoTextDownloadStep (videoUrl : String)
    (fetch : Except String String) : List String × Nat :=
  match fetch with
  | Except.ok saved => (["Saved: " ++ saved], 0)
  | Except.error e =>
      (["Error downloading video: " ++ e,
        "Video URL (download manually): " ++ videoUrl], 1)

/-- The download step of generate_speech.py (lines 142-150): on failure
print the exception text, print the audio URL for manual retry, exit 1. -/
def speechDownloadStep (audioUrl : String)
    (fetch : Except String String) : List String × Nat :=
  match fetch with
  | Except.ok saved => (["Saved: " ++ saved], 0)
  | Except.error e =>
      (["Error downloading audio: " ++ e,
        "Audio URL (download manually): " ++ audioUrl], 1)

theorem lookup_eq_none_of_not_mem {κ ν : Type} [DecidableEq κ]
    (l : List (κ × ν)) (k : κ) (h : k ∉ l.map Prod.fst) :
    lookup l k = none := by
  induction l with
  | nil => rfl
  | cons e t ih =>
    obtain ⟨ek, ev⟩ := e
    simp only [List.map_cons, List.mem_cons] at h
    push_neg at h
    simp only [lookup, if_neg h.1]
    exact ih h.2

theorem dictGet_eq_default_of_not_mem {κ ν : Type} [DecidableEq κ]
    (l : List (κ × ν)) (k : κ) (d : ν) (h : k ∉ l.map Prod.fst) :
    dictGet l k d = d := by
  induction l with
  | nil => rfl
  | cons e t ih =>
    obtain ⟨ek, ev⟩ := e
    simp only [List.map_cons, List.mem_cons] at h
    push_neg at h
    simp only [dictGet, if_neg h.1]
    exact ih h.2

/-- C1: Model-name resolution is identity pass-through for all four
categories (image, image-to-video, text-to-video, speech): a key of the
registry table resolves to its mapped identifier, any other string
resolves to itself, and resolution is a total function (never fails). -/
theorem resolve_identity_pass_through :
    (∀ n v, (n, v) ∈ IMAGE_MODELS → resolveImageModel n = v)
    ∧ (∀ n, n ∉ IMAGE_MODELS.map Prod.fst → resolveImageModel n = n)
    ∧ (∀ n v, (n, v) ∈ VIDEO_MODELS → resolveVideoModel n = v)
    ∧ (∀ n, n ∉ VIDEO_MODELS.map Prod.fst → resolveVideoModel n = n)
    ∧ (∀ n v, (n, v) ∈ TEXT_TO_VIDEO_MODELS → resolveTextToVideoModel n = v)
    ∧ (∀ n, n ∉ TEXT_TO_VIDEO_MODELS.map Prod.fst →
        resolveTextToVideoModel n = n)
    ∧ (∀ n v, (n, v) ∈ TTS_MODELS → resolveTtsModel n = v)
    ∧ (∀ n, n ∉ TTS_MODELS.map Prod.fst → resolveTtsModel n = n) := by
  refine ⟨?_, ?_, ?_, ?_, ?_, ?_, ?_, ?_⟩
  · intro n v h
    simp only [IMAGE_MODELS, List.mem_cons, List.not_mem_nil, or_false,
      Prod.mk.injEq] at h
    rcases h with ⟨rfl, rfl⟩ | ⟨rfl, rfl⟩ | ⟨rfl, rfl⟩ | ⟨rfl, rfl⟩ |
      ⟨rfl, rfl⟩ | ⟨rfl, rfl⟩ <;> rfl
  · intro n h
    exact dictGet_eq_default_of_not_mem _ _ _ h
  · intro n v h
    simp only [VIDEO_MODELS, List.mem_cons, List.not_mem_nil, or_false,
      Prod.mk.injEq] at h
    rcases h with ⟨rfl, rfl⟩ | ⟨rfl, rfl⟩ | ⟨rfl, rfl⟩ | ⟨rfl, rfl⟩ |
      ⟨rfl, rfl⟩ <;> rfl
  · intro n h
    exact dictGet_eq_default_of_not_mem _ _ _ h
  · intro n v h
    simp only [TEXT_TO_VIDEO_MODELS, List.mem_cons, List.not_mem_nil,
      or_false, Prod.mk.injEq] at h
    rcases h with ⟨rfl, rfl⟩ | ⟨rfl, rfl⟩ | ⟨rfl, rfl⟩ | ⟨rfl, rfl⟩ |
      ⟨rfl, rfl⟩ | ⟨rfl, rfl⟩ | ⟨rfl, rfl⟩ <;> rfl
  · intro n h
    exact dictGet_eq_default_of_not_mem _ _ _ h
  · intro n v h
    simp only [TTS_MODELS, List.mem_cons, List.not_mem_nil, or_false,
      Prod.mk.injEq] at h
    rcases h with ⟨rfl, rfl⟩ | ⟨rfl, rfl⟩ | ⟨rfl, rfl⟩ | ⟨rfl, rfl⟩ <;> rfl
  · intro n h
    exact dictGet_eq_default_of_not_mem _ _ _ h

/-- Witness for C1: a known shortname of each category resolves to its
mapped id, and an unknown string passes through unchanged in each. -/
theorem resolve_identity_pass_through_witness :
    resolveImageModel "flux-pro" = "fal-ai/flux-pro/v1.1"
    ∧ resolveImageModel "my/custom-model" = "my/custom-model"
    ∧ resolveVideoModel "kling" = "fal-ai/kling-video/v1.5/pro/image-to-video"
    ∧ resolveVideoModel "my/custom-model" = "my/custom-model"
    ∧ resolveTextToVideoModel "wan" = "fal-ai/wan/v2.1/text-to-video"
    ∧ resolveTextToVideoModel "my/custom-model" = "my/custom-model"
    ∧ resolveTtsModel "kokoro" = "fal-ai/kokoro"
    ∧ resolveTtsModel "my/custom-model" = "my/custom-model" :=
  ⟨resolve_identity_pass_through.1 _ _ (by decide),
   resolve_identity_pass_through.2.1 _ (by decide),
   resolve_identity_pass_through.2.2.1 _ _ (by decide),
   resolve_identity_pass_through.2.2.2.1 _ (by decide),
   resolve_identity_pass_through.2.2.2.2.1 _ _ (by decide),
   resolve_identity_pass_through.2.2.2.2.2.1 _ (by decide),
   resolve_identity_pass_through.2.2.2.2.2.2.1 _ _ (by decide),
   resolve_identity_pass_through.2.2.2.2.2.2.2 _ (by decide)⟩

/-- C2: the default invocation of generate_image with prompt "A cat",
aspect ratio "square", one image, no seed and no negative prompt submits
exactly the payload with the prompt, the clamped image count 1, and the
safety checker enabled: no image_size, seed or negative_prompt key. -/
theorem generate_image_default_payload :
    generateImagePayload "A cat" "square" 1 none true none =
      [("prompt", FalValue.str "A cat"),
       ("num_images", FalValue.int 1),
       ("enable_safety_checker", FalValue.bool true)] := by
  decide

/-- C3: for every integer image count, the num_images field of the
submitted payload is the count clamped to the interval from 1 to 4:
below 1 becomes 1, above 4 becomes 4, inside the interval unchanged. -/
theorem num_images_clamped :
    ∀ (prompt aspect : String) (n : Int) (seed : Option Int)
      (safety : Bool) (neg : Option String),
      payloadGet (generateImagePayload prompt aspect n seed safety neg)
          "num_images" = some (FalValue.int (min (max n 1) 4))
      ∧ (n < 1 → min (max n 1) 4 = 1)
      ∧ (4 < n → min (max n 1) 4 = 4)
      ∧ (1 ≤ n → n ≤ 4 → min (max n 1) 4 = n) := by
  intro prompt aspect n seed safety neg
  refine ⟨?_, by omega, by omega, by intro h1 h2; omega⟩
  simp [generateImagePayload, payloadGet, lookup]

/-- Witness for C3: counts 0 and 10 give payload values 1 and 4. -/
theorem num_images_clamped_witness :
    payloadGet (generateImagePayload "p" "square" 0 none true none)
        "num_images" = some (FalValue.int 1)
    ∧ payloadGet (generateImagePayload "p" "square" 10 none true none)
        "num_images" = some (FalValue.int 4) := by
  constructor
  · have h := num_images_clamped "p" "square" 0 none true none
    rw [h.1, h.2.1 (by decide)]
  · have h := num_images_clamped "p" "square" 10 none true none
    rw [h.1, h.2.2.1 (by decide)]

/-- C4: for every model id priced in megapixels, the estimated image cost
is unit price times width times height over one million, times the image
count; for the flux-schnell entry at 1024 by 1024 and one image the cost
is exactly 0.003145728 (0.003 times 1.048576). -/
theorem image_cost_megapixels_formula :
    (∀ (mid : String) (p : ℚ) (n w h : Int),
       lookup PRICING mid = some (p, "megapixels") →
       estimate_image_cost mid n w h =
         some (p * (((w : ℚ) * (h : ℚ)) / 1000000) * (n : ℚ), "megapixels"))
    ∧ estimate_image_cost "fal-ai/flux/schnell" 1 1024 1024 =
        some ((0.003145728 : ℚ), "megapixels") := by
  constructor
  · intro mid p n w h hl
    unfold estimate_image_cost
    rw [hl]
    simp
  · have hl : lookup PRICING "fal-ai/flux/schnell" =
        some ((0.003 : ℚ), "megapixels") := by
      simp [PRICING, lookup]
    unfold estimate_image_cost
    rw [hl]
    norm_num

/-- Witness for C4: the flux-dev entry is priced in megapixels and the
formula instance at 512 by 512 and 2 images evaluates as stated. -/
theorem image_cost_megapixels_formula_witness :
    estimate_image_cost "fal-ai/flux/dev" 2 512 512 =
      some ((0.025 : ℚ) * (((512 : ℚ) * (512 : ℚ)) / 1000000) * (2 : ℚ),
        "megapixels") :=
  image_cost_megapixels_formula.1 "fal-ai/flux/dev" 0.025 2 512 512
    (by simp [PRICING, lookup])

/-- C5: a model id absent from the static price table makes all three
cost estimators return the unavailable value, for every choice of the
remaining usage parameters, and none of them can fail otherwise (they are
total functions). -/
theorem unknown_model_cost_unavailable :
    ∀ mid, mid ∉ PRICING.map Prod.fst →
      ∀ (n w h : Int) (d : ℚ) (t : List Char),
        estimate_image_cost mid n w h = none
        ∧ estimate_video_cost mid d = none
        ∧ estimate_tts_cost mid t = none := by
  intro mid hm n w h d t
  have hl : lookup PRICING mid = none := lookup_eq_none_of_not_mem _ _ hm
  refine ⟨?_, ?_, ?_⟩
  · unfold estimate_image_cost
    rw [hl]
  · unfold estimate_video_cost
    rw [hl]
  · unfold estimate_tts_cost
    rw [hl]

/-- Witness for C5: a concrete unknown id gives the unavailable value in
all three estimators. -/
theorem unknown_model_cost_unavailable_witness :
    estimate_image_cost "acme/not-priced" 3 640 480 = none
    ∧ estimate_video_cost "acme/not-priced" 7 = none
    ∧ estimate_tts_cost "acme/not-priced" "hello".data = none :=
  unknown_model_cost_unavailable "acme/not-priced" (by decide) 3 640 480 7
    "hello".data

/-- C9: each cost estimator is homogeneous of degree one in its usage
parameter: doubling the image count doubles the image cost (megapixel- and
per-image-priced alike), doubling the duration doubles a seconds- or
compute-seconds-priced video cost, and doubling the character count of the
text doubles a per-1000-characters-priced and a minutes-priced
(char count over 750) speech cost. -/
theorem cost_estimators_linear :
    (∀ (mid : String) (n w h : Int),
       estimate_image_cost mid (2 * n) w h =
         (estimate_image_cost mid n w h).map (fun r => (2 * r.1, r.2)))
    ∧ (∀ (mid : String) (p : ℚ) (u : String) (d : ℚ),
       lookup PRICING mid = some (p, u) →
       (u = "seconds" ∨ u = "compute seconds") →
       estimate_video_cost mid (2 * d) =
         (estimate_video_cost mid d).map (fun r => (2 * r.1, r.2)))
    ∧ (∀ (mid : String) (p : ℚ) (u : String) (t t2 : List Char),
       lookup PRICING mid = some (p, u) →
       (hasSubstring "1000 characters".data u.data = true
         ∨ hasSubstring "minutes".data u.data = true) →
       t2.length = 2 * t.length →
       estimate_tts_cost mid t2 =
         (estimate_tts_cost mid t).map (fun r => (2 * r.1, r.2))) := by
  refine ⟨?_, ?_, ?_⟩
  · intro mid n w h
    unfold estimate_image_cost
    cases hl : lookup PRICING mid with
    | none => simp
    | some pu =>
      obtain ⟨p, u⟩ := pu
      by_cases hu : u = "megapixels" <;> simp [hu] <;> [skip; push_cast] <;>
        ring
  · intro mid p u d hl hu
    unfold estimate_video_cost
    rw [hl]
    simp only [if_pos hu, Option.map_some', Option.some.injEq, Prod.mk.injEq]
    exact ⟨by ring, trivial⟩
  · intro mid p u t t2 hl hu hlen
    unfold estimate_tts_cost
    rw [hl]
    by_cases h1 : hasSubstring "1000 characters".data u.data = true
    · simp only [if_pos h1, Option.map_some', Option.some.injEq,
        Prod.mk.injEq]
      refine ⟨?_, trivial⟩
      rw [hlen]
      push_cast
      ring
    · rcases hu with hu | hu
      · exact absurd hu h1
      · simp only [if_neg h1, if_pos hu, Option.map_some', Option.some.injEq,
          Prod.mk.injEq]
        refine ⟨?_, trivial⟩
        rw [hlen]
        push_cast
        ring

/-- Witness for C9: concrete doublings for a megapixel-priced image model,
a seconds-priced video model, and a per-1000-characters-priced speech
model. -/
theorem cost_estimators_linear_witness :
    estimate_image_cost "fal-ai/flux/schnell" 2 1024 1024 =
      (estimate_image_cost "fal-ai/flux/schnell" 1 1024 1024).map
        (fun r => (2 * r.1, r.2))
    ∧ estimate_video_cost "fal-ai/ltx-video" 10 =
        (estimate_video_cost "fal-ai/ltx-video" 5).map
          (fun r => (2 * r.1, r.2))
    ∧ estimate_tts_cost "fal-ai/kokoro" "abcd".data =
        (estimate_tts_cost "fal-ai/kokoro" "ab".data).map
          (fun r => (2 * r.1, r.2)) := by
  refine ⟨?_, ?_, ?_⟩
  · have h := cost_estimators_linear.1 "fal-ai/flux/schnell" 1 1024 1024
    simpa using h
  · have h := cost_estimators_linear.2.1 "fal-ai/ltx-video" 0.04 "seconds" 5
      (by simp [PRICING, lookup]) (Or.inl rfl)
    norm_num at h
    exact h
  · have h := cost_estimators_linear.2.2 "fal-ai/kokoro" 0.02
      "1000 characters" "ab".data "abcd".data (by simp [PRICING, lookup])
      (Or.inl (by decide)) (by decide)
    exact h

/-- C10: in the image-to-video payload, a non-zero duration is sent as the
decimal string of the float truncated to an integer (5.9 is sent as "5"),
and a zero duration omits the duration field entirely; a fractional
duration is therefore never transmitted. -/
theorem video_duration_truncated :
    ∀ (img : String) (pr : Option String) (d : ℚ) (ar : Option String),
      (d ≠ 0 →
        payloadGet (generateVideoPayload img pr d ar) "duration" =
          some (FalValue.str (toString (pyTruncInt d))))
      ∧ (d = 0 →
        payloadGet (generateVideoPayload img pr d ar) "duration" = none)
      ∧ pyTruncInt (59 / 10 : ℚ) = 5 := by
  intro img pr d ar
  refine ⟨?_, ?_, by norm_num [pyTruncInt]; decide⟩
  · intro hd
    rcases pr with _ | pr <;> rcases ar with _ | ar <;>
      simp [generateVideoPayload, payloadGet, lookup, hd] <;>
      split_ifs <;> simp [lookup]
  · intro hd
    subst hd
    rcases pr with _ | pr <;> rcases ar with _ | ar <;>
      simp [generateVideoPayload, payloadGet, lookup] <;>
      split_ifs <;> simp [lookup]

/-- Witness for C10: duration 5.9 is sent as the string "5"; duration 0
omits the field. -/
theorem video_duration_truncated_witness :
    payloadGet (generateVideoPayload "data:image/png;base64,AA==" none
        (59 / 10) none) "duration" = some (FalValue.str "5")
    ∧ payloadGet (generateVideoPayload "data:image/png;base64,AA==" none
        0 none) "duration" = none := by
  constructor
  · have h := video_duration_truncated "data:image/png;base64,AA==" none
      (59 / 10) none
    rw [h.1 (by norm_num)]
    rw [h.2.2]
    rfl
  · exact (video_duration_truncated "data:image/png;base64,AA==" none
      0 none).2.1 rfl

/-- C8: the download contract: the parent directory of the resolved output
path is created before the GET and is present afterwards in every outcome;
on a non-success status or a transport error the call fails with a
download error and no file is written (the created directory remains); on
success the full body is written to the resolved path, which is
returned. -/
theorem download_file_contract :
    ∀ (fs : FS) (resolve : String → String) (url outPath : String)
      (resp : HttpResult),
      parentDir (resolve outPath) ∈
        (download_file fs resolve url outPath resp).1.dirs
      ∧ (∀ code, resp = HttpResult.statusError code →
          (download_file fs resolve url outPath resp).2 =
            Except.error ("HTTP status " ++ toString code)
          ∧ (download_file fs resolve url outPath resp).1.files = fs.files
          ∧ (download_file fs resolve url outPath resp).1.dirs =
              parentDir (resolve outPath) :: fs.dirs)
      ∧ (∀ m, resp = HttpResult.transportError m →
          (download_file fs resolve url outPath resp).2 = Except.error m
          ∧ (download_file fs resolve url outPath resp).1.files = fs.files)
      ∧ (∀ body, resp = HttpResult.success body →
          (download_file fs resolve url outPath resp).2 =
            Except.ok (resolve outPath)
          ∧ (download_file fs resolve url outPath resp).1.files =
              (resolve outPath, body) :: fs.files) := by
  intro fs resolve url outPath resp
  refine ⟨?_, ?_, ?_, ?_⟩
  · cases resp <;> simp [download_file]
  · intro code hc
    subst hc
    simp [download_file]
  · intro m hm
    subst hm
    simp [download_file]
  · intro body hb
    subst hb
    simp [download_file]

/-- Witness for C8: a concrete failed download (status 404) on an empty
filesystem yields the download error, writes no file, and leaves the
created parent directory; a concrete successful download writes the body
and returns the resolved path. -/
theorem download_file_contract_witness :
    (download_file ⟨[], []⟩ id "https://u" "out/f.png"
        (HttpResult.statusError 404)).2 = Except.error "HTTP status 404"
    ∧ (download_file ⟨[], []⟩ id "https://u" "out/f.png"
        (HttpResult.statusError 404)).1.files = []
    ∧ (download_file ⟨[], []⟩ id "https://u" "out/f.png"
        (HttpResult.statusError 404)).1.dirs = ["out"]
    ∧ (download_file ⟨[], []⟩ id "https://u" "out/f.png"
        (HttpResult.success [1, 2, 3])).2 = Except.ok "out/f.png"
    ∧ (download_file ⟨[], []⟩ id "https://u" "out/f.png"
        (HttpResult.success [1, 2, 3])).1.files = [("out/f.png", [1, 2, 3])] := by
  have h1 := (download_file_contract ⟨[], []⟩ id "https://u" "out/f.png"
    (HttpResult.statusError 404)).2.1 404 rfl
  have h2 := (download_file_contract ⟨[], []⟩ id "https://u" "out/f.png"
    (HttpResult.success [1, 2, 3])).2.2.2 [1, 2, 3] rfl
  refine ⟨h1.1, h1.2.1, ?_, h2.1, h2.2⟩
  rw [h1.2.2]
  decide

/-- Counterexample to C7: in the image script (generate_image.py lines
147-153), a failed download prints only the exception text — at the
concrete failure "500 Internal Server Error" for the image at URL
https://fal.media/abc.png, the only printed line is the error report and
no printed line contains the URL, so the original URL is not printed by
every generation script. -/
theorem image_download_url_not_printed :
    (imageDownloadStep (Except.error "500 Internal Server Error")).1 =
      ["  Error downloading: 500 Internal Server Error"]
    ∧ ((imageDownloadStep
          (Except.error "500 Internal Server Error")).1).all
        (fun line =>
          !(hasSubstring "https://fal.media/abc.png".data line.data)) =
        true := by
  decide

/-- C7 (amended): on a failed download the failure is reported in every
generation script, and the original URL is printed for manual retry by
the image-to-video, text-to-video, and speech scripts, which also exit
nonzero; the image script reports only the exception text, does not print
the URL itself, and does not record the file as downloaded.  A
non-success HTTP status indeed surfaces as a download error from the
fetch itself. -/
theorem download_failure_reporting :
    ∀ (url e : String),
      (videoDownloadStep url (Except.error e)).1 =
        ["Error downloading video: " ++ e,
         "Video URL (download manually): " ++ url]
      ∧ (videoDownloadStep url (Except.error e)).2 = 1
      ∧ (videoTextDownloadStep url (Except.error e)).1 =
          ["Error downloading video: " ++ e,
           "Video URL (download manually): " ++ url]
      ∧ (videoTextDownloadStep url (Except.error e)).2 = 1
      ∧ (speechDownloadStep url (Except.error e)).1 =
          ["Error downloading audio: " ++ e,
           "Audio URL (download manually): " ++ url]
      ∧ (speechDownloadStep url (Except.error e)).2 = 1
      ∧ (imageDownloadStep (Except.error e)).1 =
          ["  Error downloading: " ++ e]
      ∧ (imageDownloadStep (Except.error e)).2 = false
      ∧ (∀ (fs : FS) (resolve : String → String) (outPath : String)
           (code : Nat),
           (download_file fs resolve url outPath
               (HttpResult.statusError code)).2 =
             Except.error ("HTTP status " ++ toString code)) := by
  intro url e
  exact ⟨rfl, rfl, rfl, rfl, rfl, rfl, rfl, rfl, fun fs resolve outPath
    code => rfl⟩

theorem suffixFromRevName_dot_at_three (c1 c2 c3 : Char) (t : List Char)
    (h1 : c1 ≠ '.') (h2 : c2 ≠ '.') (h3 : c3 ≠ '.') :
    suffixFromRevName (c1 :: c2 :: c3 :: '.' :: t) = [] ∨
    suffixFromRevName (c1 :: c2 :: c3 :: '.' :: t) = ['.', c3, c2, c1] := by
  have hd : dotIdx (c1 :: c2 :: c3 :: '.' :: t) = some 3 := by
    simp [dotIdx, h1, h2, h3]
  cases t with
  | nil =>
    left
    simp [suffixFromRevName, hd]
  | cons x xs =>
    right
    have hc : 0 < 3 ∧ 3 + 1 < (c1 :: c2 :: c3 :: '.' :: x :: xs).length := by
      simp
    simp [suffixFromRevName, hd, hc, List.take]

theorem pathSuffix_ends_png (p r : List Char) (c1 c2 c3 : Char)
    (h : p.reverse = c1 :: c2 :: c3 :: '.' :: r)
    (h1 : c1 = 'g' ∨ c1 = 'G') (h2 : c2 = 'n' ∨ c2 = 'N')
    (h3 : c3 = 'p' ∨ c3 = 'P') :
    pathSuffix p = [] ∨ pathSuffix p = ['.', c3, c2, c1] := by
  have hc1 : (c1 != '/') = true := by rcases h1 with rfl | rfl <;> decide
  have hc2 : (c2 != '/') = true := by rcases h2 with rfl | rfl <;> decide
  have hc3 : (c3 != '/') = true := by rcases h3 with rfl | rfl <;> decide
  have hps : pathSuffix p = suffixFromRevName
      (c1 :: c2 :: c3 :: '.' :: (r.takeWhile (fun c => c != '/'))) := by
    unfold pathSuffix
    rw [h, List.takeWhile_cons, if_pos hc1, List.takeWhile_cons, if_pos hc2,
      List.takeWhile_cons, if_pos hc3, List.takeWhile_cons,
      if_pos (by decide)]
  rw [hps]
  exact suffixFromRevName_dot_at_three c1 c2 c3 _
    (by rcases h1 with rfl | rfl <;> decide)
    (by rcases h2 with rfl | rfl <;> decide)
    (by rcases h3 with rfl | rfl <;> decide)

/-- C6: MIME resolution from the file suffix is total with fixed defaults:
every path ending in .png (any letter case) encodes with MIME image/png;
any suffix outside the fixed image table defaults to image/png and any
suffix outside the fixed audio table defaults to audio/mpeg; and both
encoders produce a data URI of the form
data:MIME;base64,BASE64-OF-THE-FILE-BYTES. -/
theorem mime_resolution_total_with_defaults :
    (∀ (p r : List Char) (c1 c2 c3 : Char),
       p.reverse = c1 :: c2 :: c3 :: '.' :: r →
       (c1 = 'g' ∨ c1 = 'G') → (c2 = 'n' ∨ c2 = 'N') →
       (c3 = 'p' ∨ c3 = 'P') →
       imageMime p = "image/png")
    ∧ (∀ p : List Char,
        (⟨(pathSuffix p).map Char.toLower⟩ : String) ∉
          IMAGE_MIME_TYPES.map Prod.fst →
        imageMime p = "image/png")
    ∧ (∀ p : List Char,
        (⟨(pathSuffix p).map Char.toLower⟩ : String) ∉
          AUDIO_MIME_TYPES.map Prod.fst →
        audioMime p = "audio/mpeg")
    ∧ (∀ (p : List Char) (bytes : List Nat),
        encode_image p bytes =
          "data:".data ++ (imageMime p).data ++ ";base64,".data ++
            b64Encode bytes)
    ∧ (∀ (p : List Char) (bytes : List Nat),
        encode_audio p bytes =
          "data:".data ++ (audioMime p).data ++ ";base64,".data ++
            b64Encode bytes) := by
  refine ⟨?_, ?_, ?_, fun p bytes => rfl, fun p bytes => rfl⟩
  · intro p r c1 c2 c3 h h1 h2 h3
    rcases pathSuffix_ends_png p r c1 c2 c3 h h1 h2 h3 with hs | hs
    · unfold imageMime
      rw [hs]
      decide
    · unfold imageMime
      rw [hs]
      rcases h1 with rfl | rfl <;> rcases h2 with rfl | rfl <;>
        rcases h3 with rfl | rfl <;> decide
  · intro p h
    unfold imageMime
    exact dictGet_eq_default_of_not_mem _ _ _ h
  · intro p h
    unfold audioMime
    exact dictGet_eq_default_of_not_mem _ _ _ h

/-- Witness for C6: an upper-case .PNG path resolves to image/png, an
unknown suffix defaults to image/png for images and audio/mpeg for audio,
and a concrete encoding produces the expected data URI. -/
theorem mime_resolution_total_with_defaults_witness :
    imageMime "photo.PNG".data = "image/png"
    ∧ imageMime "file.xyz".data = "image/png"
    ∧ audioMime "voice.xyz".data = "audio/mpeg"
    ∧ encode_image "photo.PNG".data [77, 97, 110] =
        "data:image/png;base64,TWFu".data := by
  refine ⟨?_, ?_, ?_, ?_⟩
  · exact mime_resolution_total_with_defaults.1 "photo.PNG".data
      ['o', 't', 'o', 'h', 'p'] 'G' 'N' 'P' (by decide) (Or.inr rfl)
      (Or.inr rfl) (Or.inr rfl)
  · exact mime_resolution_total_with_defaults.2.1 "file.xyz".data (by decide)
  · exact mime_resolution_total_with_defaults.2.2.1 "voice.xyz".data
      (by decide)
  · rw [mime_resolution_total_with_defaults.2.2.2.1 "photo.PNG".data
      [77, 97, 110]]
    decide
